import Mathlib

/-!
Verification of the line-item financial computation and invoice /
purchase-order lifecycle of the ledger-glow-cloud accounting app.

Monetary values are modelled as rationals (the source computes in
JavaScript numbers on decimal inputs; the spec calls the arithmetic
decimal-precision monetary math).  Optional fields of the TypeScript
records become `Option`; persistence calls that may fail are modelled
by an outcome oracle giving each call's success flag, and the database
tables by lists of rows.
-/

namespace LedgerGlow

/-- A submitted invoice line item (`ItemSchema` of
`InvoiceFormDialog.tsx`): `discount_percentage` and `tax_percentage`
are optional and treated as 0 when absent, as in
`Number(it.discount_percentage || 0)`. -/
structure LineItemInput where
  description : String
  quantity : ℚ
  unit_price : ℚ
  discount_percentage : Option ℚ
  tax_percentage : Option ℚ
  deriving Repr, DecidableEq

/-- Per-item base, `qty * price` (Invoices.tsx line 130). -/
def itemBase (it : LineItemInput) : ℚ :=
  it.quantity * it.unit_price

/-- Per-item discount, `base * discP` with `discP = (discount_percentage || 0) / 100`
(Invoices.tsx lines 128, 131). -/
def itemDiscount (it : LineItemInput) : ℚ :=
  itemBase it * (it.discount_percentage.getD 0 / 100)

/-- Per-item amount after discount, `base - disc` (Invoices.tsx line 132). -/
def itemAfterDisc (it : LineItemInput) : ℚ :=
  itemBase it - itemDiscount it

/-- Per-item tax, `afterDisc * taxP` with `taxP = (tax_percentage || 0) / 100`
(Invoices.tsx lines 129, 133). -/
def itemTax (it : LineItemInput) : ℚ :=
  itemAfterDisc it * (it.tax_percentage.getD 0 / 100)

/-- Per-item line total, `afterDisc + tax` (Invoices.tsx line 134). -/
def itemLineTotal (it : LineItemInput) : ℚ :=
  itemAfterDisc it + itemTax it

/-- The four running accumulators of `handleCreateOrUpdate`
(Invoices.tsx lines 120-123). -/
structure InvoiceTotals where
  subtotal : ℚ
  discount_amount : ℚ
  tax_amount : ℚ
  total_amount : ℚ
  deriving Repr, DecidableEq

/-- The `items.forEach` accumulation of Invoices.tsx lines 125-139:
each item adds its base, discount, tax and line total to the four
accumulators, all starting at 0. -/
def computeInvoiceTotals (items : List LineItemInput) : InvoiceTotals :=
  items.foldl
    (fun acc it =>
      { subtotal := acc.subtotal + itemBase it
        discount_amount := acc.discount_amount + itemDiscount it
        tax_amount := acc.tax_amount + itemTax it
        total_amount := acc.total_amount + itemLineTotal it })
    ⟨0, 0, 0, 0⟩

lemma computeInvoiceTotals_cons (it : LineItemInput) (items : List LineItemInput)
    (acc : InvoiceTotals) :
    List.foldl
      (fun acc it =>
        InvoiceTotals.mk (acc.subtotal + itemBase it) (acc.discount_amount + itemDiscount it)
          (acc.tax_amount + itemTax it) (acc.total_amount + itemLineTotal it))
      acc (it :: items)
    = List.foldl
      (fun acc it =>
        InvoiceTotals.mk (acc.subtotal + itemBase it) (acc.discount_amount + itemDiscount it)
          (acc.tax_amount + itemTax it) (acc.total_amount + itemLineTotal it))
      (InvoiceTotals.mk (acc.subtotal + itemBase it) (acc.discount_amount + itemDiscount it)
        (acc.tax_amount + itemTax it) (acc.total_amount + itemLineTotal it)) items := rfl

lemma computeInvoiceTotals_foldl_shift (items : List LineItemInput) (acc : InvoiceTotals) :
    List.foldl
      (fun acc it =>
        InvoiceTotals.mk (acc.subtotal + itemBase it) (acc.discount_amount + itemDiscount it)
          (acc.tax_amount + itemTax it) (acc.total_amount + itemLineTotal it))
      acc items
    = InvoiceTotals.mk
        (acc.subtotal + (items.map itemBase).sum)
        (acc.discount_amount + (items.map itemDiscount).sum)
        (acc.tax_amount + (items.map itemTax).sum)
        (acc.total_amount + (items.map itemLineTotal).sum) := by
  induction items generalizing acc with
  | nil => simp
  | cons it rest ih =>
      rw [computeInvoiceTotals_cons, ih]
      simp [List.map_cons, List.sum_cons]
      refine ⟨by ring, by ring, by ring, by ring⟩

/-- The accumulation of `handleCreateOrUpdate` equals the per-item sums. -/
lemma computeInvoiceTotals_eq_sums (items : List LineItemInput) :
    computeInvoiceTotals items
    = InvoiceTotals.mk (items.map itemBase).sum (items.map itemDiscount).sum
        (items.map itemTax).sum (items.map itemLineTotal).sum := by
  unfold computeInvoiceTotals
  rw [computeInvoiceTotals_foldl_shift]
  simp

/-- Scenario A's single line item: qty 2, price 50, discount 10 %, tax 5 %. -/
def scenarioAItem : LineItemInput :=
  { description := "item"
    quantity := 2
    unit_price := 50
    discount_percentage := some 10
    tax_percentage := some 5 }

end LedgerGlow

namespace LedgerGlow

/-- C1: For every list of line items, the invoice totals computation
produces, per item, base = quantity * unit_price, discount = base *
(discount_percentage / 100), after_disc = base - discount, tax =
after_disc * (tax_percentage / 100), line_total = after_disc + tax, and
in aggregate subtotal = Σ base, discount_amount = Σ discount,
tax_amount = Σ tax, total_amount = Σ line_total; for the single item
{qty:2, price:50, discount:10, tax:5} it yields subtotal=100,
discount_amount=10, tax_amount=4.5, total_amount=94.5. -/
theorem invoice_totals_formulas_and_scenarioA :
    (∀ it : LineItemInput,
      itemBase it = it.quantity * it.unit_price ∧
      itemDiscount it = itemBase it * (it.discount_percentage.getD 0 / 100) ∧
      itemAfterDisc it = itemBase it - itemDiscount it ∧
      itemTax it = itemAfterDisc it * (it.tax_percentage.getD 0 / 100) ∧
      itemLineTotal it = itemAfterDisc it + itemTax it) ∧
    (∀ items : List LineItemInput,
      computeInvoiceTotals items
        = InvoiceTotals.mk (items.map itemBase).sum (items.map itemDiscount).sum
            (items.map itemTax).sum (items.map itemLineTotal).sum) ∧
    (itemBase scenarioAItem = 100 ∧ itemDiscount scenarioAItem = 10 ∧
     itemAfterDisc scenarioAItem = 90 ∧ itemTax scenarioAItem = 4.5 ∧
     itemLineTotal scenarioAItem = 94.5 ∧
     computeInvoiceTotals [scenarioAItem]
       = InvoiceTotals.mk 100 10 4.5 94.5) := by
  refine ⟨fun it => ⟨rfl, rfl, rfl, rfl, rfl⟩, computeInvoiceTotals_eq_sums, ?_, ?_, ?_, ?_, ?_, ?_⟩ <;>
    simp [scenarioAItem, itemBase, itemDiscount, itemAfterDisc, itemTax, itemLineTotal,
      computeInvoiceTotals] <;> norm_num

end LedgerGlow

namespace LedgerGlow

/-- Validity of a submitted line item: quantity and price nonnegative,
both percentages within [0, 100] (absent percentages count as 0). -/
def validLineItem (it : LineItemInput) : Prop :=
  0 ≤ it.quantity ∧ 0 ≤ it.unit_price ∧
  0 ≤ it.discount_percentage.getD 0 ∧ it.discount_percentage.getD 0 ≤ 100 ∧
  0 ≤ it.tax_percentage.getD 0 ∧ it.tax_percentage.getD 0 ≤ 100

instance (it : LineItemInput) : Decidable (validLineItem it) := by
  unfold validLineItem; infer_instance

lemma itemLineTotal_eq_base_sub_disc_add_tax (it : LineItemInput) :
    itemLineTotal it = itemBase it - itemDiscount it + itemTax it := by
  unfold itemLineTotal itemAfterDisc
  ring

lemma sum_map_itemLineTotal (items : List LineItemInput) :
    (items.map itemLineTotal).sum
      = (items.map itemBase).sum - (items.map itemDiscount).sum
        + (items.map itemTax).sum := by
  induction items with
  | nil => simp
  | cons it rest ih =>
      simp only [List.map_cons, List.sum_cons, itemLineTotal_eq_base_sub_disc_add_tax it, ih]
      ring

/-- C2: For every valid line-item list (quantities and prices >= 0,
percentages in [0,100]), the aggregate totals computed by the invoice
totals computation satisfy
total_amount = subtotal - discount_amount + tax_amount. -/
theorem invoice_total_amount_identity (items : List LineItemInput)
    (h : ∀ it ∈ items, validLineItem it) :
    (computeInvoiceTotals items).total_amount
      = (computeInvoiceTotals items).subtotal
        - (computeInvoiceTotals items).discount_amount
        + (computeInvoiceTotals items).tax_amount := by
  rw [computeInvoiceTotals_eq_sums]
  exact sum_map_itemLineTotal items

/-- Witness for C2 at the Scenario A item. -/
theorem invoice_total_amount_identity_witness :
    (∀ it ∈ [scenarioAItem], validLineItem it) ∧
    (computeInvoiceTotals [scenarioAItem]).total_amount
      = (computeInvoiceTotals [scenarioAItem]).subtotal
        - (computeInvoiceTotals [scenarioAItem]).discount_amount
        + (computeInvoiceTotals [scenarioAItem]).tax_amount :=
  ⟨by decide, invoice_total_amount_identity [scenarioAItem] (by decide)⟩

/-- A submitted purchase-order line item (the purchase-order form's
`ItemSchema`): `product_id` and `tax_percentage` are optional, the tax
percentage treated as 0 when absent, as in `(it.tax_percentage || 0)`. -/
structure POItemInput where
  product_id : Option String
  description : String
  quantity : ℚ
  unit_price : ℚ
  tax_percentage : Option ℚ
  deriving Repr, DecidableEq

/-- Purchase-order subtotal reduction,
`items.reduce((sum, it) => sum + it.quantity * it.unit_price, 0)`. -/
def poSubtotal (items : List POItemInput) : ℚ :=
  items.foldl (fun sum it => sum + it.quantity * it.unit_price) 0

/-- Purchase-order tax reduction,
`items.reduce((sum, it) => sum + (it.quantity * it.unit_price * (it.tax_percentage || 0) / 100), 0)`. -/
def poTaxTotal (items : List POItemInput) : ℚ :=
  items.foldl (fun sum it => sum + it.quantity * it.unit_price * it.tax_percentage.getD 0 / 100) 0

/-- Purchase-order grand total, `total = subtotal + taxTotal`. -/
def poTotal (items : List POItemInput) : ℚ :=
  poSubtotal items + poTaxTotal items

/-- Per-item purchase-order line total,
`it.quantity * it.unit_price * (1 + (it.tax_percentage || 0) / 100)`. -/
def poLineTotal (it : POItemInput) : ℚ :=
  it.quantity * it.unit_price * (1 + it.tax_percentage.getD 0 / 100)

/-- View of a purchase-order item as an invoice line item whose
discount percentage is 0 on every item. -/
def poItemAsInvoiceItem (it : POItemInput) : LineItemInput :=
  { description := it.description
    quantity := it.quantity
    unit_price := it.unit_price
    discount_percentage := some 0
    tax_percentage := it.tax_percentage }

lemma foldl_add_map_sum {α : Type} (f : α → ℚ) (l : List α) (a : ℚ) :
    l.foldl (fun s x => s + f x) a = a + (l.map f).sum := by
  induction l generalizing a with
  | nil => simp
  | cons x xs ih =>
      rw [List.foldl_cons, ih, List.map_cons, List.sum_cons]
      ring

lemma itemBase_po (it : POItemInput) :
    itemBase (poItemAsInvoiceItem it) = it.quantity * it.unit_price := rfl

lemma itemDiscount_po (it : POItemInput) :
    itemDiscount (poItemAsInvoiceItem it) = 0 := by
  unfold itemDiscount itemBase poItemAsInvoiceItem
  simp

lemma itemTax_po (it : POItemInput) :
    itemTax (poItemAsInvoiceItem it)
      = it.quantity * it.unit_price * it.tax_percentage.getD 0 / 100 := by
  unfold itemTax itemAfterDisc itemDiscount itemBase poItemAsInvoiceItem
  simp
  ring

lemma itemLineTotal_po (it : POItemInput) :
    itemLineTotal (poItemAsInvoiceItem it) = poLineTotal it := by
  simp only [itemLineTotal, itemAfterDisc, itemTax, itemDiscount, itemBase, poItemAsInvoiceItem,
    poLineTotal, Option.getD_some]
  ring

/-- C7: For every line-item list without discounts, the purchase-order
totals computation (subtotal = Σ qty * price, tax_amount = Σ qty *
price * tax / 100, total_amount = subtotal + tax_amount, per-item
line_total = qty * price * (1 + tax / 100)) produces the same subtotal,
tax_amount, total_amount and line totals as the invoice line-item
calculator applied with discount_percentage = 0 on every item. -/
theorem po_totals_agree_with_invoice_calculator (items : List POItemInput) :
    poSubtotal items = (computeInvoiceTotals (items.map poItemAsInvoiceItem)).subtotal ∧
    poTaxTotal items = (computeInvoiceTotals (items.map poItemAsInvoiceItem)).tax_amount ∧
    poTotal items = (computeInvoiceTotals (items.map poItemAsInvoiceItem)).total_amount ∧
    ∀ it : POItemInput, poLineTotal it = itemLineTotal (poItemAsInvoiceItem it) := by
  have hsub : poSubtotal items
      = (items.map (fun it => it.quantity * it.unit_price)).sum := by
    have := foldl_add_map_sum (fun it : POItemInput => it.quantity * it.unit_price) items 0
    simpa [poSubtotal] using this
  have htax : poTaxTotal items
      = (items.map (fun it => it.quantity * it.unit_price * it.tax_percentage.getD 0 / 100)).sum := by
    have := foldl_add_map_sum
      (fun it : POItemInput => it.quantity * it.unit_price * it.tax_percentage.getD 0 / 100) items 0
    simpa [poTaxTotal] using this
  have hbase : (items.map poItemAsInvoiceItem).map itemBase
      = items.map (fun it => it.quantity * it.unit_price) := by
    rw [List.map_map]
    exact List.map_congr_left fun it _ => itemBase_po it
  have htaxmap : (items.map poItemAsInvoiceItem).map itemTax
      = items.map (fun it => it.quantity * it.unit_price * it.tax_percentage.getD 0 / 100) := by
    rw [List.map_map]
    exact List.map_congr_left fun it _ => itemTax_po it
  have hdiscmap : (items.map poItemAsInvoiceItem).map itemDiscount
      = items.map (fun _ => (0 : ℚ)) := by
    rw [List.map_map]
    exact List.map_congr_left fun it _ => itemDiscount_po it
  have hdisc0 : ((items.map poItemAsInvoiceItem).map itemDiscount).sum = 0 := by
    rw [hdiscmap]
    simp
  rw [computeInvoiceTotals_eq_sums]
  refine ⟨?_, ?_, ?_, fun it => (itemLineTotal_po it).symm⟩
  · rw [hsub, hbase]
  · rw [htax, htaxmap]
  · rw [sum_map_itemLineTotal, hdisc0, poTotal, hsub, htax, hbase, htaxmap]
    ring

end LedgerGlow

namespace LedgerGlow

/-- Invoice item validation (`ItemSchema` of InvoiceFormDialog.tsx lines
20-26): description nonempty, quantity at least 1 ("Qty must be >= 1"),
unit price nonnegative, optional percentages within [0, 100] (absent
optional fields pass by default). -/
def itemSchemaCheck (it : LineItemInput) : Bool :=
  decide (1 ≤ it.description.length) &&
  decide (1 ≤ it.quantity) &&
  decide (0 ≤ it.unit_price) &&
  decide (0 ≤ it.discount_percentage.getD 0) && decide (it.discount_percentage.getD 0 ≤ 100) &&
  decide (0 ≤ it.tax_percentage.getD 0) && decide (it.tax_percentage.getD 0 ≤ 100)

/-- Purchase-order item validation (the purchase-order form's `ItemSchema`):
same as the invoice variant minus the discount, `product_id` unchecked. -/
def poItemSchemaCheck (it : POItemInput) : Bool :=
  decide (1 ≤ it.description.length) &&
  decide (1 ≤ it.quantity) &&
  decide (0 ≤ it.unit_price) &&
  decide (0 ≤ it.tax_percentage.getD 0) && decide (it.tax_percentage.getD 0 ≤ 100)

/-- The invoice form's default line item
`{ description: "", quantity: 1, unit_price: 0, discount_percentage: 0, tax_percentage: 0 }`. -/
def defaultInvoiceItem : LineItemInput :=
  { description := ""
    quantity := 1
    unit_price := 0
    discount_percentage := some 0
    tax_percentage := some 0 }

/-- An otherwise valid line item whose quantity is 0. -/
def zeroQtyItem : LineItemInput :=
  { description := "Design services"
    quantity := 0
    unit_price := 10
    discount_percentage := some 0
    tax_percentage := some 0 }

/-- C9 counterexample: a quantity of 0 is nonnegative and the item is
otherwise well formed, yet item validation rejects it, because the
schema requires quantity >= 1, not merely >= 0. -/
theorem quantity_zero_rejected :
    (0 : ℚ) ≤ zeroQtyItem.quantity ∧ itemSchemaCheck zeroQtyItem = false := by
  constructor
  · simp [zeroQtyItem]
  · decide

/-- C9 (amended): for every submitted invoice or purchase-order line item
whose other fields pass their checks, validation accepts the item iff its
quantity is at least 1 (with default 1), so every quantity below 1 —
including 0 — is rejected, not only negative quantities. -/
theorem item_quantity_accepted_iff_ge_one (it : LineItemInput) (po : POItemInput)
    (hd : 1 ≤ it.description.length) (hp : 0 ≤ it.unit_price)
    (hdisc0 : 0 ≤ it.discount_percentage.getD 0) (hdisc1 : it.discount_percentage.getD 0 ≤ 100)
    (htax0 : 0 ≤ it.tax_percentage.getD 0) (htax1 : it.tax_percentage.getD 0 ≤ 100) :
    (itemSchemaCheck it = true ↔ 1 ≤ it.quantity) ∧
    (poItemSchemaCheck po = true → 1 ≤ po.quantity) ∧
    defaultInvoiceItem.quantity = 1 := by
  refine ⟨?_, ?_, rfl⟩
  · simp only [itemSchemaCheck, Bool.and_eq_true, decide_eq_true_eq]
    constructor
    · exact fun h => h.1.1.1.1.1.2
    · exact fun hq => ⟨⟨⟨⟨⟨⟨hd, hq⟩, hp⟩, hdisc0⟩, hdisc1⟩, htax0⟩, htax1⟩
  · intro h
    simp only [poItemSchemaCheck, Bool.and_eq_true, decide_eq_true_eq] at h
    exact h.1.1.1.2

/-- An otherwise valid invoice line item with quantity 2. -/
def sampleOkItem : LineItemInput :=
  { description := "x"
    quantity := 2
    unit_price := 5
    discount_percentage := some 0
    tax_percentage := some 0 }

/-- An otherwise valid purchase-order line item with quantity 3. -/
def sampleOkPOItem : POItemInput :=
  { product_id := none
    description := "y"
    quantity := 3
    unit_price := 1
    tax_percentage := some 0 }

/-- Witness for the amended C9 at concrete items. -/
theorem item_quantity_accepted_iff_ge_one_witness :
    (itemSchemaCheck sampleOkItem = true ↔ 1 ≤ sampleOkItem.quantity) ∧
    (poItemSchemaCheck sampleOkPOItem = true → 1 ≤ sampleOkPOItem.quantity) ∧
    defaultInvoiceItem.quantity = 1 :=
  item_quantity_accepted_iff_ge_one sampleOkItem sampleOkPOItem (by decide) (by decide)
    (by decide) (by decide) (by decide) (by decide)

/-- The invoice form's submitted values (`FormSchema` of
InvoiceFormDialog.tsx lines 28-37); the two date fields are carried as
plain strings since `z.coerce.date` accepts every date the form
produces. -/
structure InvoiceFormValues where
  invoice_number : String
  customer_id : String
  invoice_date : String
  due_date : Option String
  status : String
  line_items : List LineItemInput
  deriving Repr, DecidableEq

/-- Membership in the invoice status enum ["draft", "sent", "paid", "overdue"]. -/
def invoiceStatusCheck (s : String) : Bool :=
  s == "draft" || s == "sent" || s == "paid" || s == "overdue"

/-- Invoice `FormSchema` validation: nonempty invoice number and customer,
status in the enum, and at least one line item ("Add at least one item"),
each item passing `ItemSchema`. -/
def invoiceFormCheck (f : InvoiceFormValues) : Bool :=
  decide (1 ≤ f.invoice_number.length) &&
  decide (1 ≤ f.customer_id.length) &&
  invoiceStatusCheck f.status &&
  decide (1 ≤ f.line_items.length) &&
  f.line_items.all itemSchemaCheck

/-- The purchase-order form's submitted values (the purchase-order
form's `FormSchema`); `vendor_id` is optional there. -/
structure POFormValues where
  po_number : String
  vendor_id : Option String
  order_date : String
  expected_delivery_date : Option String
  status : String
  line_items : List POItemInput
  deriving Repr, DecidableEq

/-- Membership in the purchase-order status enum
["pending", "approved", "ordered", "received", "cancelled"]. -/
def poStatusCheck (s : String) : Bool :=
  s == "pending" || s == "approved" || s == "ordered" || s == "received" || s == "cancelled"

/-- Purchase-order `FormSchema` validation: nonempty PO number, status in
the enum, at least one line item, each passing its `ItemSchema`. -/
def poFormCheck (f : POFormValues) : Bool :=
  decide (1 ≤ f.po_number.length) &&
  poStatusCheck f.status &&
  decide (1 ≤ f.line_items.length) &&
  f.line_items.all poItemSchemaCheck

/-- The tables a creation submit writes to. -/
inductive PersistenceCall where
  | insertInvoiceHeader
  | insertInvoiceItems
  | insertPOHeader
  | insertPOItems
  deriving Repr, DecidableEq

/-- The invoice form's submit path: the zod resolver runs first and
`onSubmit` (whose `handleCreateOrUpdate` issues the two inserts) is
invoked only on values that pass validation; a failing parse reports the
validation issue and issues no persistence call. -/
def submitInvoiceCreate (f : InvoiceFormValues) : List PersistenceCall :=
  if invoiceFormCheck f then
    [PersistenceCall.insertInvoiceHeader, PersistenceCall.insertInvoiceItems]
  else []

/-- The purchase-order form's submit path, same shape as the invoice one. -/
def submitPOCreate (f : POFormValues) : List PersistenceCall :=
  if poFormCheck f then
    [PersistenceCall.insertPOHeader, PersistenceCall.insertPOItems]
  else []

/-- C3: For every proposed invoice or purchase order with an empty
line-item list, creation is rejected by validation (at least one line
item is required) before any persistence call is issued. -/
theorem empty_line_items_rejected (f : InvoiceFormValues) (g : POFormValues)
    (hf : f.line_items = []) (hg : g.line_items = []) :
    invoiceFormCheck f = false ∧ submitInvoiceCreate f = [] ∧
    poFormCheck g = false ∧ submitPOCreate g = [] := by
  have h1 : invoiceFormCheck f = false := by
    simp [invoiceFormCheck, hf]
  have h2 : poFormCheck g = false := by
    simp [poFormCheck, hg]
  exact ⟨h1, by simp [submitInvoiceCreate, h1], h2, by simp [submitPOCreate, h2]⟩

/-- A concrete invoice form with no line items. -/
def invoiceFormNoItems : InvoiceFormValues :=
  { invoice_number := "INV-1001"
    customer_id := "cust-1"
    invoice_date := "2025-01-01"
    due_date := none
    status := "draft"
    line_items := [] }

/-- A concrete purchase-order form with no line items. -/
def poFormNoItems : POFormValues :=
  { po_number := "PO-1"
    vendor_id := none
    order_date := "2025-01-01"
    expected_delivery_date := none
    status := "pending"
    line_items := [] }

/-- Witness for C3 at concrete forms with no line items. -/
theorem empty_line_items_rejected_witness :
    invoiceFormCheck invoiceFormNoItems = false ∧
    submitInvoiceCreate invoiceFormNoItems = [] ∧
    poFormCheck poFormNoItems = false ∧
    submitPOCreate poFormNoItems = [] :=
  empty_line_items_rejected invoiceFormNoItems poFormNoItems rfl rfl

end LedgerGlow

namespace LedgerGlow

/-- The persisted invoice header record built by `handleCreateOrUpdate`
(Invoices.tsx lines 141-160): the four computed totals, and
`balance_due` set to `total_amount` (source comment: paid_amount
defaults to 0; the invoices table declares `paid_amount DECIMAL DEFAULT 0`). -/
structure InvoiceHeader where
  user_id : String
  invoice_number : String
  customer_id : String
  invoice_date : String
  due_date : Option String
  status : String
  subtotal : ℚ
  discount_amount : ℚ
  tax_amount : ℚ
  total_amount : ℚ
  balance_due : ℚ
  deriving Repr, DecidableEq

/-- Builds the `header` object of Invoices.tsx lines 141-160 from the
signed-in user's id and the validated form values. -/
def buildInvoiceHeader (uid : String) (values : InvoiceFormValues) : InvoiceHeader :=
  { user_id := uid
    invoice_number := values.invoice_number
    customer_id := values.customer_id
    invoice_date := values.invoice_date
    due_date := values.due_date
    status := values.status
    subtotal := (computeInvoiceTotals values.line_items).subtotal
    discount_amount := (computeInvoiceTotals values.line_items).discount_amount
    tax_amount := (computeInvoiceTotals values.line_items).tax_amount
    total_amount := (computeInvoiceTotals values.line_items).total_amount
    balance_due := (computeInvoiceTotals values.line_items).total_amount }

/-- C6: For every invoice write-set produced from a header and line
items, the stored balance_due equals total_amount minus paid_amount; on
creation balance_due is set to total_amount because paid_amount
starts at 0 (the column default). -/
theorem balance_due_equals_total_minus_paid (uid : String) (values : InvoiceFormValues)
    (paid_amount : ℚ) (hpaid : paid_amount = 0) :
    (buildInvoiceHeader uid values).balance_due
      = (buildInvoiceHeader uid values).total_amount - paid_amount ∧
    (buildInvoiceHeader uid values).balance_due
      = (buildInvoiceHeader uid values).total_amount := by
  subst hpaid
  exact ⟨by simp [buildInvoiceHeader], rfl⟩

/-- Witness for C6 at a concrete form. -/
theorem balance_due_equals_total_minus_paid_witness :
    (buildInvoiceHeader "u1" invoiceFormNoItems).balance_due
      = (buildInvoiceHeader "u1" invoiceFormNoItems).total_amount - 0 ∧
    (buildInvoiceHeader "u1" invoiceFormNoItems).balance_due
      = (buildInvoiceHeader "u1" invoiceFormNoItems).total_amount :=
  balance_due_equals_total_minus_paid "u1" invoiceFormNoItems 0 rfl

/-- A stored `invoice_items` row, with the fields the insert payload of
Invoices.tsx lines 179-198 carries; absent optional percentages are
stored as 0 and `line_total` is recomputed per item. -/
structure InvoiceItemRow where
  invoice_id : String
  description : String
  quantity : ℚ
  unit_price : ℚ
  discount_percentage : ℚ
  tax_percentage : ℚ
  line_total : ℚ
  deriving Repr, DecidableEq

/-- One element of the `toInsert` payload of Invoices.tsx lines 179-198. -/
def toInvoiceItemRow (invoice_id : String) (it : LineItemInput) : InvoiceItemRow :=
  { invoice_id := invoice_id
    description := it.description
    quantity := it.quantity
    unit_price := it.unit_price
    discount_percentage := it.discount_percentage.getD 0
    tax_percentage := it.tax_percentage.getD 0
    line_total := itemLineTotal it }

/-- A stored `invoices` row: primary key plus header fields. -/
structure InvoiceRow where
  id : String
  header : InvoiceHeader
  deriving Repr, DecidableEq

/-- The two tables the invoice flows touch. -/
structure InvoiceDB where
  invoices : List InvoiceRow
  invoice_items : List InvoiceItemRow
  deriving Repr, DecidableEq

/-- Success flags for the three persistence calls of the update branch:
header update, item delete, item insert.  A call that errors leaves its
table unchanged. -/
structure UpdateOutcomes where
  headerOk : Bool
  deleteOk : Bool
  insertOk : Bool
  deriving Repr, DecidableEq

/-- The update branch of `handleCreateOrUpdate` (Invoices.tsx lines
162-208): update the header row matching the edited id and the caller's
user id; on success delete all `invoice_items` rows of that invoice; on
success insert the freshly built rows.  Each failing call makes the
handler return after its toast, skipping the remaining calls.  The Bool
result records whether the whole save succeeded. -/
def updateInvoiceFlow (db : InvoiceDB) (editingId uid : String)
    (values : InvoiceFormValues) (o : UpdateOutcomes) : InvoiceDB × Bool :=
  if !o.headerOk then (db, false)
  else
    let hdr := buildInvoiceHeader uid values
    let db1 : InvoiceDB :=
      { db with invoices := db.invoices.map fun r =>
          if r.id == editingId && r.header.user_id == uid then { r with header := hdr } else r }
    if !o.deleteOk then (db1, false)
    else
      let db2 : InvoiceDB :=
        { db1 with invoice_items := db1.invoice_items.filter fun r => r.invoice_id != editingId }
      if !o.insertOk then (db2, false)
      else
        ({ db2 with invoice_items :=
            db2.invoice_items ++ values.line_items.map (toInvoiceItemRow editingId) }, true)

/-- The stored header of the invoice edited in the concrete runs below. -/
def c4OldHeader : InvoiceHeader :=
  { user_id := "u1"
    invoice_number := "INV-1"
    customer_id := "cust-1"
    invoice_date := "2025-01-01"
    due_date := none
    status := "draft"
    subtotal := 20
    discount_amount := 0
    tax_amount := 0
    total_amount := 20
    balance_due := 20 }

/-- The stored line item of the invoice edited in the concrete runs below. -/
def c4OldItem : InvoiceItemRow :=
  { invoice_id := "inv1"
    description := "old work"
    quantity := 2
    unit_price := 10
    discount_percentage := 0
    tax_percentage := 0
    line_total := 20 }

/-- Concrete database: one invoice "inv1" of user "u1" with one item. -/
def c4DB : InvoiceDB :=
  { invoices := [{ id := "inv1", header := c4OldHeader }]
    invoice_items := [c4OldItem] }

/-- The submitted replacement values for invoice "inv1". -/
def c4NewValues : InvoiceFormValues :=
  { invoice_number := "INV-1"
    customer_id := "cust-1"
    invoice_date := "2025-01-02"
    due_date := none
    status := "sent"
    line_items := [{ description := "new work", quantity := 1, unit_price := 30,
                     discount_percentage := some 0, tax_percentage := some 0 }] }

/-- The "inv1" row after the header update applies the new values. -/
def c4UpdatedRow : InvoiceRow :=
  { id := "inv1", header := buildInvoiceHeader "u1" c4NewValues }

/-- C4 counterexample: when the header update and the item delete
succeed and the item insert fails, the save reports failure yet the
database is left with the header updated while the old items are
deleted and the new ones are never inserted — exactly the outcome the
claim says is unreachable. -/
theorem invoice_update_non_atomic :
    (updateInvoiceFlow c4DB "inv1" "u1" c4NewValues ⟨true, true, false⟩).2 = false ∧
    (updateInvoiceFlow c4DB "inv1" "u1" c4NewValues ⟨true, true, false⟩).1.invoices
      = [c4UpdatedRow] ∧
    c4UpdatedRow.header ≠ c4OldHeader ∧
    (updateInvoiceFlow c4DB "inv1" "u1" c4NewValues ⟨true, true, false⟩).1.invoice_items = [] ∧
    c4NewValues.line_items.map (toInvoiceItemRow "inv1") ≠ [] := by
  refine ⟨rfl, rfl, ?_, rfl, by simp [c4NewValues]⟩
  intro h
  have hstatus := congrArg InvoiceHeader.status h
  simp [c4UpdatedRow, c4OldHeader, buildInvoiceHeader, c4NewValues] at hstatus

/-- C4 (amended): the invoice update is not atomic but a sequence of
three persistence calls aborting at the first failure; whenever the
header update and the item delete succeed and the item insert fails,
the result reports failure with the header row updated and every item
row of the edited invoice deleted, none of the new rows inserted. -/
theorem invoice_update_insert_failure_state (db : InvoiceDB)
    (editingId uid : String) (values : InvoiceFormValues) (o : UpdateOutcomes)
    (h1 : o.headerOk = true) (h2 : o.deleteOk = true) (h3 : o.insertOk = false) :
    updateInvoiceFlow db editingId uid values o
      = (InvoiceDB.mk
          (db.invoices.map fun r =>
            if r.id == editingId && r.header.user_id == uid
            then { r with header := buildInvoiceHeader uid values } else r)
          (db.invoice_items.filter fun r => r.invoice_id != editingId), false) := by
  simp [updateInvoiceFlow, h1, h2, h3]

/-- Witness for the amended C4 at the concrete database. -/
theorem invoice_update_insert_failure_state_witness :
    updateInvoiceFlow c4DB "inv1" "u1" c4NewValues ⟨true, true, false⟩
      = (InvoiceDB.mk [c4UpdatedRow] [], false) := by
  rw [invoice_update_insert_failure_state c4DB "inv1" "u1" c4NewValues ⟨true, true, false⟩
    rfl rfl rfl]
  rfl

end LedgerGlow

namespace LedgerGlow

lemma filter_beq_filter_bne {α : Type} (key : α → String) (id : String) (l : List α) :
    (l.filter fun r => key r != id).filter (fun r => key r == id) = [] := by
  induction l with
  | nil => rfl
  | cons r rest ih =>
      cases hkr : key r == id with
      | false => simp [List.filter_cons, bne, hkr, ih]
      | true => simp [List.filter_cons, bne, hkr, ih]

lemma filter_beq_map_key {α β : Type} (key : β → String) (id : String) (f : α → β)
    (hf : ∀ a, key (f a) = id) (l : List α) :
    (l.map f).filter (fun r => key r == id) = l.map f := by
  induction l with
  | nil => rfl
  | cons a rest ih => simp [List.filter_cons, hf a, ih]

/-- C5: For every successful update of an invoice's line items, all item
rows previously stored under that invoice id are deleted and exactly the
newly submitted rows are stored under it, so no orphaned old items
remain. -/
theorem invoice_update_success_replaces_items (db : InvoiceDB)
    (editingId uid : String) (values : InvoiceFormValues) (o : UpdateOutcomes)
    (hsucc : (updateInvoiceFlow db editingId uid values o).2 = true) :
    (updateInvoiceFlow db editingId uid values o).1.invoice_items
      = db.invoice_items.filter (fun r => r.invoice_id != editingId)
        ++ values.line_items.map (toInvoiceItemRow editingId) ∧
    (updateInvoiceFlow db editingId uid values o).1.invoice_items.filter
        (fun r => r.invoice_id == editingId)
      = values.line_items.map (toInvoiceItemRow editingId) := by
  obtain ⟨a, b, c⟩ := o
  cases a
  · simp [updateInvoiceFlow] at hsucc
  · cases b
    · simp [updateInvoiceFlow] at hsucc
    · cases c
      · simp [updateInvoiceFlow] at hsucc
      · refine ⟨rfl, ?_⟩
        show ((db.invoice_items.filter fun r => r.invoice_id != editingId)
            ++ values.line_items.map (toInvoiceItemRow editingId)).filter
              (fun r => r.invoice_id == editingId)
          = values.line_items.map (toInvoiceItemRow editingId)
        rw [List.filter_append,
          filter_beq_filter_bne (fun r : InvoiceItemRow => r.invoice_id) editingId,
          filter_beq_map_key (fun r : InvoiceItemRow => r.invoice_id) editingId
            (toInvoiceItemRow editingId) (fun _ => rfl) values.line_items]
        simp

/-- Witness for C5 at the concrete database with an all-success run. -/
theorem invoice_update_success_replaces_items_witness :
    (updateInvoiceFlow c4DB "inv1" "u1" c4NewValues ⟨true, true, true⟩).1.invoice_items
      = c4DB.invoice_items.filter (fun r => r.invoice_id != "inv1")
        ++ c4NewValues.line_items.map (toInvoiceItemRow "inv1") ∧
    (updateInvoiceFlow c4DB "inv1" "u1" c4NewValues ⟨true, true, true⟩).1.invoice_items.filter
        (fun r => r.invoice_id == "inv1")
      = c4NewValues.line_items.map (toInvoiceItemRow "inv1") :=
  invoice_update_success_replaces_items c4DB "inv1" "u1" c4NewValues ⟨true, true, true⟩ rfl

/-- A `user_roles` row (table `user_roles`, unique on (user_id, role)). -/
structure UserRoleRow where
  user_id : String
  role : String
  deriving Repr, DecidableEq

/-- Success flags for the two persistence calls of `handleRoleChange`:
the delete of all existing role rows and the insert of the new one. -/
structure RoleChangeOutcomes where
  deleteOk : Bool
  insertOk : Bool
  deriving Repr, DecidableEq

/-- `handleRoleChange` of Expenses.tsx lines 424-451: look the target
user up in the fetched `users` state and return unchanged when absent;
delete all `user_roles` rows of that user (abort on error); insert the
single row with the new role (abort on error). -/
def handleRoleChange (knownUsers : List String) (rows : List UserRoleRow)
    (userId newRole : String) (o : RoleChangeOutcomes) : List UserRoleRow × Bool :=
  if userId ∉ knownUsers then (rows, false)
  else if !o.deleteOk then (rows, false)
  else
    let rows1 := rows.filter fun r => r.user_id != userId
    if !o.insertOk then (rows1, false)
    else (rows1 ++ [⟨userId, newRole⟩], true)

/-- C8: For every role assignment performed by `handleRoleChange`, all
of the target user's existing role rows are deleted first and then
exactly one row with the new role is inserted, so after a successful
assignment the user holds exactly one role: the new one. -/
theorem role_change_replaces_roles (knownUsers : List String) (rows : List UserRoleRow)
    (userId newRole : String) (o : RoleChangeOutcomes)
    (hsucc : (handleRoleChange knownUsers rows userId newRole o).2 = true) :
    (handleRoleChange knownUsers rows userId newRole o).1
      = rows.filter (fun r => r.user_id != userId) ++ [⟨userId, newRole⟩] ∧
    (handleRoleChange knownUsers rows userId newRole o).1.filter
        (fun r => r.user_id == userId)
      = [⟨userId, newRole⟩] := by
  by_cases hm : userId ∈ knownUsers
  · obtain ⟨b, c⟩ := o
    cases b
    · simp [handleRoleChange, hm] at hsucc
    · cases c
      · simp [handleRoleChange, hm] at hsucc
      · have hres : (handleRoleChange knownUsers rows userId newRole ⟨true, true⟩).1
            = rows.filter (fun r => r.user_id != userId) ++ [⟨userId, newRole⟩] := by
          simp [handleRoleChange, hm]
        refine ⟨hres, ?_⟩
        rw [hres, List.filter_append,
          filter_beq_filter_bne (fun r : UserRoleRow => r.user_id) userId]
        simp
  · simp [handleRoleChange, hm] at hsucc

/-- Witness for C8: user "bob" with two old roles gets role "admin". -/
theorem role_change_replaces_roles_witness :
    (handleRoleChange ["alice", "bob"]
        [⟨"bob", "user"⟩, ⟨"alice", "admin"⟩, ⟨"bob", "accountant"⟩]
        "bob" "admin" ⟨true, true⟩).1
      = ([⟨"bob", "user"⟩, ⟨"alice", "admin"⟩, ⟨"bob", "accountant"⟩] :
          List UserRoleRow).filter (fun r => r.user_id != "bob") ++ [⟨"bob", "admin"⟩] ∧
    (handleRoleChange ["alice", "bob"]
        [⟨"bob", "user"⟩, ⟨"alice", "admin"⟩, ⟨"bob", "accountant"⟩]
        "bob" "admin" ⟨true, true⟩).1.filter (fun r => r.user_id == "bob")
      = [⟨"bob", "admin"⟩] :=
  role_change_replaces_roles ["alice", "bob"]
    [⟨"bob", "user"⟩, ⟨"alice", "admin"⟩, ⟨"bob", "accountant"⟩]
    "bob" "admin" ⟨true, true⟩ rfl

end LedgerGlow

namespace LedgerGlow

/-- A stored `purchase_order_items` row, with the fields of the
`itemsPayload` maps of the purchase-order page (part_003 lines 142-151
and 176-185). -/
structure POItemRow where
  purchase_order_id : String
  product_id : Option String
  description : String
  quantity : ℚ
  unit_price : ℚ
  tax_percentage : ℚ
  line_total : ℚ
  received_quantity : ℚ
  deriving Repr, DecidableEq

/-- One payload row: both the create and the update branch write the
literal `received_quantity: 0`. -/
def toPOItemRow (poId : String) (it : POItemInput) : POItemRow :=
  { purchase_order_id := poId
    product_id := it.product_id
    description := it.description
    quantity := it.quantity
    unit_price := it.unit_price
    tax_percentage := it.tax_percentage.getD 0
    line_total := poLineTotal it
    received_quantity := 0 }

/-- The `itemsPayload` map shared by the create and the update branch. -/
def poItemsPayload (poId : String) (items : List POItemInput) : List POItemRow :=
  items.map (toPOItemRow poId)

/-- The persisted purchase-order header payload (part_003 lines
112-126); an empty vendor id is stored as null via `vendor_id || null`. -/
structure POHeader where
  user_id : String
  po_number : String
  vendor_id : Option String
  order_date : String
  expected_delivery_date : Option String
  status : String
  subtotal : ℚ
  tax_amount : ℚ
  total_amount : ℚ
  deriving Repr, DecidableEq

/-- Builds the `poPayload` object of part_003 lines 112-126. -/
def buildPOHeader (uid : String) (values : POFormValues) : POHeader :=
  { user_id := uid
    po_number := values.po_number
    vendor_id := values.vendor_id.filter (fun s => !s.isEmpty)
    order_date := values.order_date
    expected_delivery_date := values.expected_delivery_date
    status := values.status
    subtotal := poSubtotal values.line_items
    tax_amount := poTaxTotal values.line_items
    total_amount := poTotal values.line_items }

/-- A stored `purchase_orders` row: primary key plus header fields. -/
structure PORow where
  id : String
  header : POHeader
  deriving Repr, DecidableEq

/-- The two tables the purchase-order flows touch. -/
structure PODB where
  purchase_orders : List PORow
  purchase_order_items : List POItemRow
  deriving Repr, DecidableEq

/-- Success flags for the three persistence calls of the purchase-order
update branch. -/
structure POUpdateOutcomes where
  headerOk : Bool
  deleteOk : Bool
  insertOk : Bool
  deriving Repr, DecidableEq

/-- The update branch of the purchase-order `handleCreateOrUpdate`
(part_003 lines 128-163): the header update aborts on error; the item
delete's result is discarded by the source (its error is never
checked), so the flow continues to the insert either way; the item
insert aborts on error. -/
def updatePOFlow (db : PODB) (editingId uid : String) (values : POFormValues)
    (o : POUpdateOutcomes) : PODB × Bool :=
  if !o.headerOk then (db, false)
  else
    let hdr := buildPOHeader uid values
    let db1 : PODB :=
      { db with purchase_orders := db.purchase_orders.map fun r =>
          if r.id == editingId && r.header.user_id == uid then { r with header := hdr } else r }
    let db2 : PODB :=
      if o.deleteOk then
        { db1 with purchase_order_items :=
            db1.purchase_order_items.filter fun r => r.purchase_order_id != editingId }
      else db1
    if !o.insertOk then (db2, false)
    else
      ({ db2 with purchase_order_items :=
          db2.purchase_order_items ++ poItemsPayload editingId values.line_items }, true)

/-- Success flags for the two persistence calls of the purchase-order
create branch. -/
structure POCreateOutcomes where
  headerOk : Bool
  insertOk : Bool
  deriving Repr, DecidableEq

/-- The create branch of the purchase-order `handleCreateOrUpdate`
(part_003 lines 164-196): insert the header row under a fresh id,
abort on error, then insert the items payload. -/
def createPOFlow (db : PODB) (newId uid : String) (values : POFormValues)
    (o : POCreateOutcomes) : PODB × Bool :=
  if !o.headerOk then (db, false)
  else
    let db1 : PODB :=
      { db with purchase_orders := db.purchase_orders ++ [⟨newId, buildPOHeader uid values⟩] }
    if !o.insertOk then (db1, false)
    else
      ({ db1 with purchase_order_items :=
          db1.purchase_order_items ++ poItemsPayload newId values.line_items }, true)

/-- C10: Every purchase-order save (create or update) writes line-item
rows with received_quantity = 0; in particular a successful update with
the delete applied leaves, for the edited order, exactly the newly
submitted rows, so previously recorded received quantities are reset to
zero rather than preserved. -/
theorem po_save_resets_received_quantity (db : PODB) (editingId uid newId : String)
    (values : POFormValues) (o : POUpdateOutcomes) (oc : POCreateOutcomes)
    (hdel : o.deleteOk = true)
    (hsucc : (updatePOFlow db editingId uid values o).2 = true)
    (hcsucc : (createPOFlow db newId uid values oc).2 = true) :
    (∀ (poId : String) (items : List POItemInput),
      ∀ r ∈ poItemsPayload poId items, r.received_quantity = 0) ∧
    ((updatePOFlow db editingId uid values o).1.purchase_order_items
      = db.purchase_order_items.filter (fun r => r.purchase_order_id != editingId)
        ++ poItemsPayload editingId values.line_items) ∧
    (∀ r ∈ (updatePOFlow db editingId uid values o).1.purchase_order_items,
      r.purchase_order_id = editingId → r.received_quantity = 0) ∧
    ((createPOFlow db newId uid values oc).1.purchase_order_items
      = db.purchase_order_items ++ poItemsPayload newId values.line_items) := by
  have hpayload : ∀ (poId : String) (items : List POItemInput),
      ∀ r ∈ poItemsPayload poId items, r.received_quantity = 0 := by
    intro poId items r hr
    obtain ⟨it, _, rfl⟩ := List.mem_map.mp hr
    rfl
  have hupd : (updatePOFlow db editingId uid values o).1.purchase_order_items
      = db.purchase_order_items.filter (fun r => r.purchase_order_id != editingId)
        ++ poItemsPayload editingId values.line_items := by
    obtain ⟨a, b, c⟩ := o
    cases a
    · simp [updatePOFlow] at hsucc
    · cases c
      · simp [updatePOFlow] at hsucc
      · cases b
        · simp at hdel
        · rfl
  have hcre : (createPOFlow db newId uid values oc).1.purchase_order_items
      = db.purchase_order_items ++ poItemsPayload newId values.line_items := by
    obtain ⟨a, c⟩ := oc
    cases a
    · simp [createPOFlow] at hcsucc
    · cases c
      · simp [createPOFlow] at hcsucc
      · rfl
  refine ⟨hpayload, hupd, ?_, hcre⟩
  intro r hr hid
  rw [hupd] at hr
  rcases List.mem_append.mp hr with hold | hnew
  · have := List.of_mem_filter hold
    rw [hid] at this
    simp at this
  · exact hpayload editingId values.line_items r hnew

/-- The stored purchase-order header edited in the concrete run below. -/
def c10OldPOHeader : POHeader :=
  { user_id := "u1"
    po_number := "PO-7"
    vendor_id := none
    order_date := "2025-02-01"
    expected_delivery_date := none
    status := "ordered"
    subtotal := 100
    tax_amount := 0
    total_amount := 100 }

/-- A stored item of purchase order "po1" with 5 units already received. -/
def c10OldRow : POItemRow :=
  { purchase_order_id := "po1"
    product_id := none
    description := "widget"
    quantity := 4
    unit_price := 25
    tax_percentage := 0
    line_total := 100
    received_quantity := 5 }

/-- Concrete database: one purchase order "po1" of user "u1" with one
partly received item. -/
def c10DB : PODB :=
  { purchase_orders := [{ id := "po1", header := c10OldPOHeader }]
    purchase_order_items := [c10OldRow] }

/-- The submitted replacement values for purchase order "po1". -/
def c10Values : POFormValues :=
  { po_number := "PO-7"
    vendor_id := none
    order_date := "2025-02-01"
    expected_delivery_date := none
    status := "ordered"
    line_items := [{ product_id := none, description := "widget", quantity := 4,
                     unit_price := 25, tax_percentage := some 0 }] }

/-- Witness for C10 at the concrete database with an all-success run. -/
theorem po_save_resets_received_quantity_witness :
    (∀ (poId : String) (items : List POItemInput),
      ∀ r ∈ poItemsPayload poId items, r.received_quantity = 0) ∧
    ((updatePOFlow c10DB "po1" "u1" c10Values ⟨true, true, true⟩).1.purchase_order_items
      = c10DB.purchase_order_items.filter (fun r => r.purchase_order_id != "po1")
        ++ poItemsPayload "po1" c10Values.line_items) ∧
    (∀ r ∈ (updatePOFlow c10DB "po1" "u1" c10Values ⟨true, true, true⟩).1.purchase_order_items,
      r.purchase_order_id = "po1" → r.received_quantity = 0) ∧
    ((createPOFlow c10DB "po2" "u1" c10Values ⟨true, true⟩).1.purchase_order_items
      = c10DB.purchase_order_items ++ poItemsPayload "po2" c10Values.line_items) :=
  po_save_resets_received_quantity c10DB "po1" "u1" "po2" c10Values
    ⟨true, true, true⟩ ⟨true, true⟩ rfl rfl rfl

end LedgerGlow
